import Mathlib

/-!
# Verification of the AgentMyPdf run-lifecycle tracker and notification hub

Shallow embedding of the core logic of the repository:

* `src/src/websocket.ts` — the `AgentWebSocket` Durable Object: session
  registry, per-run and global subscriptions, fan-out (`broadcastRunUpdate`),
  subscribe/unsubscribe/close handlers.
* `src/src/agent.ts` — the `IntelligentAgent`: the `askQuestion` RAG pipeline
  (relevance guardrail, word indexing, embedding, vector search, document
  retrieval, synthesis), its SQL `agent_runs` table, the agent state, and the
  background launcher `processQuestion`.
* `src/src/index.ts` — the Hono routes `POST /question` and
  `GET /status/:runId`.

JavaScript `Map`/`Set` values are modelled as association lists / duplicate-free
lists in insertion order; `Set.add` appends when absent, `Set.delete` /
`Map.delete` filter the element out.  External capabilities (Workers AI,
Vectorize, D1) are modelled by an oracle record supplying the result of each call or
thrown error (`Except`).  Timestamps (`Date.now()`) are irrelevant to every
property proved here and are omitted from the record types.
-/

/-! ## Notification hub (`src/src/websocket.ts`) -/

/-- One WebSocket session as the hub sees it: whether `ws.readyState` is
`READY_STATE_OPEN`, and whether `ws.send` throws when invoked (the transport
failure mode that `broadcastRunUpdate` catches and logs). -/
structure Session where
  isOpen : Bool
  sendThrows : Bool
deriving Repr, DecidableEq

/-- The mutable state of the `AgentWebSocket` Durable Object:
`sessions : Map<string, WebSocket>`, `runSubscriptions : Map<string, Set<string>>`
and `globalSubscribers : Set<string>`. -/
structure HubState where
  sessions : List (String × Session)
  runSubscriptions : List (String × List String)
  globalSubscribers : List String
deriving Repr, DecidableEq

/-- JS `Set.add`: append the element if it is not already present. -/
def insertUnique (c : String) (l : List String) : List String :=
  if c ∈ l then l else l ++ [c]

/-- Model of `Map.get` on `runSubscriptions`. -/
def lookupRun (m : List (String × List String)) (r : String) : Option (List String) :=
  (m.find? (fun p => p.1 = r)).map Prod.snd

/-- Model of `Map.set` on `runSubscriptions`: update in place if the key exists
(keeping insertion order), otherwise append. -/
def setRun : List (String × List String) → String → List String →
    List (String × List String)
  | [], r, l => [(r, l)]
  | p :: t, r, l => if p.1 = r then (r, l) :: t else p :: setRun t r l

/-- Model of `Map.delete` on `runSubscriptions`. -/
def deleteRun (m : List (String × List String)) (r : String) :
    List (String × List String) :=
  m.filter (fun p => p.1 ≠ r)

/-- The resolved scope reported in subscribe/unsubscribe acknowledgments. -/
inductive Scope
  | specific
  | global
deriving Repr, DecidableEq

/-- The acknowledgment message (`type: "subscribed"` / `"unsubscribed"`) sent
back to the client: the echoed run id and the resolved scope. -/
structure Ack where
  runId : String
  scope : Scope
deriving Repr, DecidableEq

/-- The wildcard test in `handleSubscribe`/`handleUnsubscribe`:
`!runId || runId === "all" || runId === "*"`.  `none` models an omitted
`runId` field (JS `undefined`), and the empty string is likewise falsy. -/
def isWildcard : Option String → Bool
  | none => true
  | some r => r = "" || r = "all" || r = "*"

/-- Handler `handleSubscribe(clientId, runId)` (websocket.ts lines 128–158): wildcard
adds the client to `globalSubscribers` and acknowledges scope `global` with the
echoed id `"all"`; otherwise the client is added to the subscriber set of that run
(created on demand) and the acknowledgment has scope `specific`. -/
def handleSubscribe (st : HubState) (clientId : String) (runId : Option String) :
    HubState × Ack :=
  if isWildcard runId then
    ({ st with globalSubscribers := insertUnique clientId st.globalSubscribers },
     { runId := "all", scope := Scope.global })
  else
    let r := runId.getD ""
    let cur := (lookupRun st.runSubscriptions r).getD []
    ({ st with runSubscriptions := setRun st.runSubscriptions r (insertUnique clientId cur) },
     { runId := r, scope := Scope.specific })

/-- Handler `handleUnsubscribe(clientId, runId)` (websocket.ts lines 163–192): wildcard
removes the client from `globalSubscribers`; otherwise it is removed from the set
of that run, and a per-run set that becomes empty is pruned from the map. -/
def handleUnsubscribe (st : HubState) (clientId : String) (runId : Option String) :
    HubState × Ack :=
  if isWildcard runId then
    ({ st with globalSubscribers := st.globalSubscribers.filter (· ≠ clientId) },
     { runId := "all", scope := Scope.global })
  else
    let r := runId.getD ""
    match lookupRun st.runSubscriptions r with
    | none => (st, { runId := r, scope := Scope.specific })
    | some l =>
      let l' := l.filter (· ≠ clientId)
      if l'.isEmpty then
        ({ st with runSubscriptions := deleteRun st.runSubscriptions r },
         { runId := r, scope := Scope.specific })
      else
        ({ st with runSubscriptions := setRun st.runSubscriptions r l' },
         { runId := r, scope := Scope.specific })

/-- The run-subscription cleanup loop of `handleClose`: remove the client from
every per-run set, pruning in passing the sets that become (or already were)
empty. -/
def closeRuns : List (String × List String) → String → List (String × List String)
  | [], _ => []
  | p :: t, c =>
    let l' := p.2.filter (· ≠ c)
    if l'.isEmpty then closeRuns t c else (p.1, l') :: closeRuns t c

/-- Handler `handleClose(clientId)` (websocket.ts lines 207–223): remove the client
from `globalSubscribers`, from every run-specific subscription (pruning empty
sets), and drop its session. -/
def handleClose (st : HubState) (clientId : String) : HubState :=
  { sessions := st.sessions.filter (fun p => p.1 ≠ clientId)
    runSubscriptions := closeRuns st.runSubscriptions clientId
    globalSubscribers := st.globalSubscribers.filter (· ≠ clientId) }

/-- Whether `sendToClient`/`broadcastRunUpdate` consider the client transport
live: a session exists and `ws.readyState === WebSocket.READY_STATE_OPEN`. -/
def sessionIsLive (st : HubState) (c : String) : Bool :=
  match (st.sessions.find? (fun p => p.1 = c)).map Prod.snd with
  | some s => s.isOpen
  | none => false

/-- Whether a `ws.send` to the client succeeds during fan-out: the session is
live and the send does not throw. -/
def sendSucceeds (st : HubState) (c : String) : Bool :=
  match (st.sessions.find? (fun p => p.1 = c)).map Prod.snd with
  | some s => s.isOpen && !s.sendThrows
  | none => false

/-- Fan-out `broadcastRunUpdate(runId, update)` (websocket.ts lines 239–279).
Returns the updated hub state together with the list of client ids whose send
succeeded.  The recipients are `runSubscriptions[runId] ∪ globalSubscribers`;
with zero recipients the call returns unchanged.  A recipient whose transport
is not live is deleted from the set of this run and from `globalSubscribers`
("clean up stale connections"); a recipient whose `ws.send` throws is only
logged and left subscribed.  If the set of this run ends up empty its map entry is
deleted. -/
def broadcastRunUpdate (st : HubState) (runId : String) : HubState × List String :=
  let specificSubscribers := (lookupRun st.runSubscriptions runId).getD []
  let allRecipients := (specificSubscribers ++ st.globalSubscribers).dedup
  if allRecipients.isEmpty then (st, [])
  else
    let stale := allRecipients.filter (fun c => !sessionIsLive st c)
    let delivered := allRecipients.filter (fun c => sendSucceeds st c)
    let specific' := specificSubscribers.filter (fun c => c ∉ stale)
    let global' := st.globalSubscribers.filter (fun c => c ∉ stale)
    let runSubs' :=
      if specific'.isEmpty then deleteRun st.runSubscriptions runId
      else setRun st.runSubscriptions runId specific'
    ({ st with runSubscriptions := runSubs', globalSubscribers := global' }, delivered)

/-! ## Run store and pipeline (`src/src/agent.ts`) -/

/-- The `AgentRunStatus` union type. -/
inductive RunStatus
  | pending
  | running
  | completed
  | failed
deriving Repr, DecidableEq

/-- The fields of `RAGAgentState` that the pipeline reads or writes
(`lastUpdated` is a timestamp and is omitted). -/
structure AgentState where
  totalRuns : Nat
  lastQuestion : Option String
  lastRunId : Option String
  lastRunStatus : Option RunStatus
  documentsRetrieved : Option Nat
  lastDocumentSources : Option (List String)
  lastSearchScore : Option Rat
deriving Repr, DecidableEq

/-- The initial agent state (`initialState` in agent.ts). -/
def initialAgentState : AgentState :=
  { totalRuns := 0, lastQuestion := none, lastRunId := none, lastRunStatus := none
    documentsRetrieved := none, lastDocumentSources := none, lastSearchScore := none }

/-- One row of the `agent_runs` SQLite table (timestamp and latency columns
omitted; note the schema has **no error column**). -/
structure RunRow where
  id : String
  question : String
  answer : String
  documents_used : Nat
  row_status : RunStatus
  tools_used : List String
  tool_call_count : Nat
deriving Repr, DecidableEq

/-- Persistent data of the per-run Durable Object: the `agent_runs` table (in
insertion order, `id` being the primary key) and the agent state. -/
structure AgentDO where
  agent_runs : List RunRow
  state : AgentState
deriving Repr, DecidableEq

/-- The `INSERT INTO agent_runs` statements in `askQuestion`: both inserts sit
in a `try { ... } catch` that only logs, so a primary-key conflict (a row with
the same id already stored) leaves the table unchanged. -/
def insertRun (d : AgentDO) (r : RunRow) : AgentDO :=
  if d.agent_runs.any (fun x => x.id = r.id) then d
  else { d with agent_runs := d.agent_runs ++ [r] }

/-- Model of `this.setState` on the agent. -/
def setAgentState (d : AgentDO) (f : AgentState → AgentState) : AgentDO :=
  { d with state := f d.state }

/-- One match returned by `VECTORIZE.query` (`searchVectors`). -/
structure SearchMatch where
  id : String
  score : Rat
deriving Repr, DecidableEq

/-- One row of the D1 `documents` table. -/
structure DocRow where
  id : String
  text : String
  source : String
deriving Repr, DecidableEq

/-- A document as produced by `retrieveDocuments`. -/
structure RetrievedDoc where
  id : String
  content : String
  source : String
  score : Rat
deriving Repr, DecidableEq

/-- Oracle for the external capability calls made by one `askQuestion`
execution.  `Except.error` models the call throwing.  `isComplianceRelated`
and `generateWordIndexing` contain their own `try/catch` with a fallback, so
they cannot throw and are modelled by plain values. -/
structure Oracle where
  relevant : Bool
  specificTerms : List String
  contextTerms : List String
  embeddingResult : Except String Unit
  searchResult : Except String (List SearchMatch)
  dbThrows : Bool
  documentsTable : List DocRow
  synthesisResult : Except String (Option String)
deriving Repr

/-- Strip every character that is not a word character, as the regex
`replace(/[^\w\s]/gi, "")` does on a space-free token. -/
def stripNonWord (w : String) : String :=
  String.mk (w.toList.filter (fun c => c.isAlphanum || c = '_'))

/-- The fallback of `generateWordIndexing` when the model returns nothing:
split the question on spaces, strip punctuation, keep words longer than 4. -/
def fallbackWords (q : String) : List String :=
  ((q.splitOn " ").map stripNonWord).filter (fun w => w.length > 4)

/-- Stage `generateWordIndexing(question)`: the term lists of the oracle, or the simple
word-splitting fallback when both lists come back empty. -/
def generateWordIndexing (o : Oracle) (question : String) : List String × List String :=
  if o.specificTerms.isEmpty && o.contextTerms.isEmpty
  then (fallbackWords question, [])
  else (o.specificTerms, o.contextTerms)

/-- JS `Array.join(", ")`. -/
def joinComma (l : List String) : String :=
  String.intercalate ", " l

/-- The enriched query assembled before `generateEmbedding`. -/
def enhancedQuery (question : String) (specific context : List String) : String :=
  question ++ "\n      \nCONCEPTOS CLAVE (Alta Relevancia): " ++ joinComma specific ++
    "\nCONTEXTO GENERAL: " ++ joinComma context

/-- The `scoreMap` lookup in `retrieveDocuments`: a JS `Map` built from a list
keeps the **last** entry for a duplicated key; missing ids score `0`. -/
def scoreFor (searchResults : List SearchMatch) (i : String) : Rat :=
  match searchResults.reverse.find? (fun r => r.id = i) with
  | some r => r.score
  | none => 0

/-- Stage `retrieveDocuments(searchResults)` (agent.ts lines 884–915): an empty
match list short-circuits to `[]` without touching D1; otherwise the D1 query
`SELECT id, text, source FROM documents WHERE id IN (...)` may throw, and the
returned rows are tagged with their search score and a `[Fuente: ...]` header. -/
def retrieveDocuments (o : Oracle) (searchResults : List SearchMatch) :
    Except String (List RetrievedDoc) :=
  if searchResults.isEmpty then Except.ok []
  else if o.dbThrows then Except.error "D1 query failed"
  else
    let documentIds := searchResults.map (fun r => r.id)
    let results := o.documentsTable.filter (fun doc => doc.id ∈ documentIds)
    Except.ok (results.map (fun doc =>
      { id := doc.id
        content := "[Fuente: " ++ doc.source ++ "]\n" ++ doc.text
        source := doc.source
        score := scoreFor searchResults doc.id }))

/-- Model of `Number.toFixed(1)` on a non-negative rational (scores lie in `[0, 1]`,
percentages in `[0, 100]`): round to one decimal digit. -/
def toFixed1 (q : Rat) : String :=
  let n : Int := (q * 10 + 1 / 2).floor
  toString (n / 10) ++ "." ++ toString (n % 10)

/-- Insertion sort by descending score — `[...documents].sort((a, b) => b.score - a.score)`. -/
def insertDescByScore (d : RetrievedDoc) : List RetrievedDoc → List RetrievedDoc
  | [] => [d]
  | x :: xs => if d.score ≥ x.score then d :: x :: xs else x :: insertDescByScore d xs

/-- Sort a document list by descending score. -/
def sortDescByScore : List RetrievedDoc → List RetrievedDoc
  | [] => []
  | x :: xs => insertDescByScore x (sortDescByScore xs)

/-- The per-document block of the prompt. -/
def formatDoc (idx : Nat) (doc : RetrievedDoc) : String :=
  "[DOCUMENTO " ++ toString (idx + 1) ++ "] (Relevancia: " ++ toFixed1 (doc.score * 100) ++
    "%)\nFuente: " ++ doc.source ++ "\nContenido:\n" ++ doc.content

/-- Unique sources in first-appearance order — `[...new Set(xs)]`. -/
def uniqueSources (documents : List RetrievedDoc) : List String :=
  ((documents.map (fun d => d.source)).foldl
    (fun acc s => if s ∈ acc then acc else acc ++ [s]) [])

/-- Prompt builder `buildPrompt(question, documents, avgScore?)` (agent.ts lines 962–1028).
With zero documents it returns the prompt that instructs the model to report
insufficient information; otherwise the documents are sorted by score and laid
out with the chain-of-thought scaffolding. -/
def buildPrompt (question : String) (documents : List RetrievedDoc)
    (avgScore : Option Rat) : String :=
  if documents.isEmpty then
    "No se encontraron documentos relevantes para responder la pregunta:\n\n" ++ question ++
      "\n\nPor favor, indica que no hay suficiente información en la base de conocimiento."
  else
    let sortedDocs := sortDescByScore documents
    let formattedDocs :=
      String.intercalate "\n\n---\n\n"
        ((sortedDocs.enum).map (fun p => formatDoc p.1 p.2))
    "Contexto de búsqueda:\n- Se encontraron " ++ toString documents.length ++
      " documentos relevantes\n- Relevancia promedio: " ++
      (match avgScore with
       | some a => toFixed1 (a * 100) ++ "%"
       | none => "N/A") ++
      "\n- Fuentes únicas: " ++ joinComma (uniqueSources documents) ++
      "\n\n=== DOCUMENTOS RELEVANTES ===\n" ++ formattedDocs ++
      "\n\n=== PREGUNTA DEL USUARIO ===\n" ++ question ++
      "\n\n=== PROCESO DE RAZONAMIENTO ===\nPor favor, sigue este proceso:\n\n" ++
      "1. IDENTIFICACIÓN: Identifica qué documentos contienen información relevante para la pregunta\n" ++
      "2. EXTRACCIÓN: Extrae los puntos clave de cada documento relevante\n" ++
      "3. SÍNTESIS: Combina la información de manera coherente\n" ++
      "4. RESPUESTA: Formula una respuesta clara y estructurada\n\n" ++
      "=== FORMATO DE RESPUESTA ===\nEstructura tu respuesta así:\n\n" ++
      "**Respuesta principal:**\n[Tu respuesta aquí, citando fuentes]\n\n" ++
      "**Documentos utilizados:**\n[Lista los documentos y su relevancia]\n\n" ++
      "**Recomendaciones:**\n[Si aplica, proporciona recomendaciones prácticas]\n\n" ++
      "**Limitaciones:**\n[Si falta información, indícalo claramente]\n\nComienza tu respuesta:"

/-- The canned answer stored for questions the relevance guardrail rejects. -/
def notRelevantAnswer : String :=
  "La entrada proporcionada no parece ser una pregunta válida relacionada con el ámbito de compliance o aseguramiento de calidad.\n        \nSolo puedo responder preguntas relacionadas con:\n- Leyes de protección de datos\n- Compras públicas (Ley 19.886)\n- Protección de consumidores (Ley 19.496)  \n- Responsabilidad penal empresarial (Ley 20.393)\n- Regulaciones financieras (UAF, CMF)\n- Normativas Fintech\n\nPor favor, formule una pregunta específica sobre estas temáticas."

/-- The fallback answer when the LLM response carries no extractable text
(`if (!fullAnswer)` in agent.ts). -/
def fallbackAnswer : String :=
  "No se pudo generar una respuesta válida del modelo."

/-- Average search score (agent.ts line 275): `0` for an empty result list. -/
def avgScoreOf (searchResults : List SearchMatch) : Rat :=
  if searchResults.isEmpty then 0
  else (searchResults.foldl (fun acc r => acc + r.score) 0) / searchResults.length

/-- The outcome of one `askQuestion` generator execution:

* `states` — the durable-object state after each mutation (`setState` or SQL
  insert), in program order; `final` is the last of them.
* `stageCalls` — how many external capability calls were made (relevance
  classifier, word indexing, embedding, Vectorize query, D1 retrieval when the
  match list is non-empty, LLM synthesis).
* `events` — the notification events the pipeline pushes to the
  `AgentWebSocket` hub.  `IntelligentAgent` contains **no** call to the hub
  `/broadcast` endpoint (nor any other use of the `AgentWebSocket` binding),
  so this list is `[]` on every path: the faithful translation of "no emission
  site exists in the source".
* `threw` — whether the generator re-threw out of its `catch` block.
* `synthPrompt` — the user prompt passed to the synthesis model, when that
  call was reached. -/
structure ExecOutcome where
  states : List AgentDO
  final : AgentDO
  stageCalls : Nat
  events : List String
  threw : Bool
  synthPrompt : Option String
deriving Repr, DecidableEq

/-- Terminal part of the `catch` block of `askQuestion`: mark the agent state
`failed` and re-throw.  (No row is written to `agent_runs`, and no error text
is persisted anywhere.) -/
def failExit (d1 : AgentDO) (states : List AgentDO) (calls : Nat)
    (prompt : Option String) : ExecOutcome :=
  let df := setAgentState d1 (fun s => { s with lastRunStatus := some RunStatus.failed })
  { states := states ++ [df], final := df, stageCalls := calls, events := []
    threw := true, synthPrompt := prompt }

/-- Pipeline `askQuestion(question, runId)` (agent.ts lines 133–472), with the
capability calls resolved by the oracle.  Mutation order follows the source:
`setState running`; guardrail; (irrelevant: insert completed row, `setState
completed`); word indexing; embedding; vector search; document retrieval;
`setState` with retrieval metadata; synthesis; insert completed row;
`setState completed`.  Any thrown stage error lands in the `catch` block
(`failExit`). -/
def askQuestion (o : Oracle) (question runId : String) (d0 : AgentDO) : ExecOutcome :=
  let d1 := setAgentState d0 (fun s =>
    { s with totalRuns := s.totalRuns + 1, lastQuestion := some question,
             lastRunId := some runId, lastRunStatus := some RunStatus.running })
  if !o.relevant then
    let row : RunRow :=
      { id := runId, question := question, answer := notRelevantAnswer
        documents_used := 0, row_status := RunStatus.completed
        tools_used := ["Relevance Filter"], tool_call_count := 1 }
    let d2 := insertRun d1 row
    let d3 := setAgentState d2 (fun s => { s with lastRunStatus := some RunStatus.completed })
    { states := [d1, d2, d3], final := d3, stageCalls := 1, events := []
      threw := false, synthPrompt := none }
  else
    let wi := generateWordIndexing o question
    let _query := enhancedQuery question wi.1 wi.2
    match o.embeddingResult with
    | Except.error _ => failExit d1 [d1] 3 none
    | Except.ok _ =>
      match o.searchResult with
      | Except.error _ => failExit d1 [d1] 4 none
      | Except.ok searchResults =>
        let retrievalCalls := if searchResults.isEmpty then 4 else 5
        match retrieveDocuments o searchResults with
        | Except.error _ => failExit d1 [d1] retrievalCalls none
        | Except.ok documents =>
          let d2 := setAgentState d1 (fun s =>
            { s with documentsRetrieved := some documents.length,
                     lastDocumentSources := some (uniqueSources documents),
                     lastSearchScore := some (avgScoreOf searchResults) })
          let prompt := buildPrompt question documents none
          match o.synthesisResult with
          | Except.error _ => failExit d2 [d1, d2] (retrievalCalls + 1) (some prompt)
          | Except.ok extracted =>
            let fullAnswer :=
              match extracted with
              | some a => if a = "" then fallbackAnswer else a
              | none => fallbackAnswer
            let toolsUsed := ["Word Indexing", "Text Embedding Generator",
              "Vector Similarity Search", "Document Retriever", "LLM Answer Generator"]
            let row : RunRow :=
              { id := runId, question := question, answer := fullAnswer
                documents_used := documents.length, row_status := RunStatus.completed
                tools_used := toolsUsed, tool_call_count := 5 }
            let d3 := insertRun d2 row
            let d4 := setAgentState d3 (fun s =>
              { s with lastRunStatus := some RunStatus.completed })
            { states := [d1, d2, d3, d4], final := d4, stageCalls := retrievalCalls + 1
              events := [], threw := false, synthPrompt := some prompt }

/-- The outcome of `processQuestion(payload)` (agent.ts lines 557–603): the
method runs the whole `askQuestion` generator inside `ctx.waitUntil` with a
`try/catch` that swallows any re-thrown error, and unconditionally returns
`{success: true}` to its caller. -/
structure ProcessOutcome where
  states : List AgentDO
  final : AgentDO
  stageCalls : Nat
  events : List String
  returnedSuccess : Bool
deriving Repr, DecidableEq

/-- Launcher `processQuestion` starts the pipeline with **no** check of any stored
status: every invocation drives the full stage sequence. -/
def processQuestion (o : Oracle) (question runId : String) (d0 : AgentDO) :
    ProcessOutcome :=
  let e := askQuestion o question runId d0
  { states := e.states, final := e.final, stageCalls := e.stageCalls
    events := e.events, returnedSuccess := true }

/-! ## HTTP layer (`src/src/index.ts`) -/

/-- The JSON body of a `GET /status/:runId` response, restricted to the fields
the claims mention.  Neither success shape carries an error message: the table
row has no error column, and the in-progress fallback exposes only the status. -/
structure StatusResponse where
  ok : Bool
  runStatusField : Option RunStatus
  answer : Option String
  errorField : Option String
deriving Repr, DecidableEq

/-- Route `GET /status/:runId` (index.ts lines 83–150): look the run up in the
`agent_runs` history of the agent; if absent, fall back to the agent state when
`lastRunId` matches (`status.state.lastRunStatus || "running"`), else 404.
(`getHistory` returns the 100 most recent rows; a per-run agent instance holds
at most a handful, so the limit is never reached and is omitted here.) -/
def statusQuery (d : AgentDO) (runId : String) : StatusResponse :=
  match d.agent_runs.find? (fun r => r.id = runId) with
  | some r =>
    { ok := true, runStatusField := some r.row_status, answer := some r.answer
      errorField := none }
  | none =>
    if d.state.lastRunId = some runId then
      { ok := true, runStatusField := some (d.state.lastRunStatus.getD RunStatus.running)
        answer := none, errorField := none }
    else
      { ok := false, runStatusField := none, answer := none
        errorField := some "Run not found. It may not have started yet or the runId is invalid." }

/-- The JSON body + status code of a `POST /question` response, restricted to
the fields the claims mention. -/
structure CreateResponse where
  code : Nat
  bodySuccess : Option Bool
  bodyRunId : Option String
  bodyStatusField : Option String
  bodyError : Option String
deriving Repr, DecidableEq

/-- Route `POST /question` (index.ts lines 36–75).  `question` is the parsed body
field (`none` when absent; the empty string is falsy too); `rpcThrows` models
the dispatch call `agent.processQuestion(...)` throwing, which the `catch` of
the handler turns into a 500.  On success the handler returns **202** with the new
run id and the literal body field `status: "running"`. -/
def postQuestion (question : Option String) (runId : String) (rpcThrows : Bool) :
    CreateResponse :=
  match question with
  | none =>
    { code := 400, bodySuccess := some false, bodyRunId := none
      bodyStatusField := none, bodyError := some "Question is required" }
  | some q =>
    if q = "" then
      { code := 400, bodySuccess := some false, bodyRunId := none
        bodyStatusField := none, bodyError := some "Question is required" }
    else if rpcThrows then
      { code := 500, bodySuccess := some false, bodyRunId := none
        bodyStatusField := none, bodyError := some "Unknown error" }
    else
      { code := 202, bodySuccess := some true, bodyRunId := some runId
        bodyStatusField := some "running", bodyError := none }

/-! ## Observation helpers for the status walk -/

/-- The precedence order of the run state machine
`pending → running → {completed | failed}`: `statusLe a b` says a status-query
observation may move from `a` to `b` (each status may repeat; the two terminal
statuses are reachable only from `running` and never leave themselves). -/
def statusLe : RunStatus → RunStatus → Bool
  | RunStatus.pending, _ => true
  | RunStatus.running, RunStatus.pending => false
  | RunStatus.running, _ => true
  | RunStatus.completed, RunStatus.completed => true
  | RunStatus.completed, _ => false
  | RunStatus.failed, RunStatus.failed => true
  | RunStatus.failed, _ => false

/-- A status sequence is a non-decreasing walk along the state machine. -/
def monotonicWalk : List RunStatus → Bool
  | [] => true
  | [_] => true
  | a :: b :: t => statusLe a b && monotonicWalk (b :: t)

/-- The statuses a poller reading `GET /status/:runId` sees along a trace of
durable-object states (404 responses carry no status and are skipped). -/
def observedStatuses (trace : List AgentDO) (runId : String) : List RunStatus :=
  trace.filterMap (fun d => (statusQuery d runId).runStatusField)

/-! ## Concrete fixtures used by counterexamples and witnesses -/

/-- A freshly started per-run agent instance: empty history, initial state. -/
def cleanDO : AgentDO :=
  { agent_runs := [], state := initialAgentState }

/-- Oracle for a run the relevance guardrail rejects (shortest completing
path: one stage call, canned answer stored as `completed`). -/
def oracleIrrelevant : Oracle :=
  { relevant := false, specificTerms := [], contextTerms := []
    embeddingResult := Except.ok (), searchResult := Except.ok []
    dbThrows := false, documentsTable := []
    synthesisResult := Except.ok none }

/-- Oracle for a run whose embedding call throws: the pipeline lands in the
top-level `catch`. -/
def oracleEmbedFail : Oracle :=
  { relevant := true, specificTerms := ["datos"], contextTerms := ["ley"]
    embeddingResult := Except.error "AI gateway error"
    searchResult := Except.ok [], dbThrows := false, documentsTable := []
    synthesisResult := Except.ok none }

/-- Oracle for a run whose vector search returns zero matches while every
stage succeeds. -/
def oracleEmptySearch : Oracle :=
  { relevant := true, specificTerms := ["datos"], contextTerms := ["ley"]
    embeddingResult := Except.ok ()
    searchResult := Except.ok []
    dbThrows := false, documentsTable := []
    synthesisResult :=
      Except.ok (some "No hay suficiente información en la base de conocimiento para responder.") }

/-- Hub with two subscriptions for `c1` (runs `A` and `B`) whose transport is
closed, and a subscriber `c2` of run `A` whose open transport throws on send. -/
def hubTwoRuns : HubState :=
  { sessions := [("c1", { isOpen := false, sendThrows := false }),
                 ("c2", { isOpen := true, sendThrows := true })]
    runSubscriptions := [("A", ["c1", "c2"]), ("B", ["c1"])]
    globalSubscribers := [] }

/-- Hub with one live, non-throwing session `c1` and no subscriptions. -/
def hubOneLive : HubState :=
  { sessions := [("c1", { isOpen := true, sendThrows := false })]
    runSubscriptions := []
    globalSubscribers := [] }

/-- Hub where `c1` is live and `c2` has a closed transport, both subscribed to
run `r1`. -/
def hubMixed : HubState :=
  { sessions := [("c1", { isOpen := true, sendThrows := false }),
                 ("c2", { isOpen := false, sendThrows := false })]
    runSubscriptions := [("r1", ["c1", "c2"])]
    globalSubscribers := [] }

/-- The pruning invariant of the subscription registry: no run id is mapped to
an empty subscriber set. -/
def noEmptyRuns (st : HubState) : Bool :=
  st.runSubscriptions.all (fun p => !p.2.isEmpty)

/-- The durable-object states a poller can observe for run `r1` across a
failing launch (embedding throws) followed by a retried launch of the same run
id that completes: the initial state, then every mutation of both executions. -/
def regressTrace : List AgentDO :=
  cleanDO :: ((askQuestion oracleEmbedFail "hola" "r1" cleanDO).states ++
    (askQuestion oracleIrrelevant "hola" "r1"
      (askQuestion oracleEmbedFail "hola" "r1" cleanDO).final).states)

/-! ## Helper lemmas about the registry primitives -/

theorem lookupRun_cons_pos {p : String × List String} {t : List (String × List String)}
    {r : String} (h : p.1 = r) : lookupRun (p :: t) r = some p.2 := by
  simp [lookupRun, List.find?_cons_of_pos, h]

theorem lookupRun_cons_neg {p : String × List String} {t : List (String × List String)}
    {r : String} (h : ¬ p.1 = r) : lookupRun (p :: t) r = lookupRun t r := by
  unfold lookupRun
  rw [List.find?_cons_of_neg]
  simpa using h

theorem mem_insertUnique {a c : String} {l : List String} :
    a ∈ insertUnique c l ↔ a = c ∨ a ∈ l := by
  unfold insertUnique
  split
  · rename_i h
    constructor
    · exact fun hm => Or.inr hm
    · rintro (rfl | hm)
      · exact h
      · exact hm
  · simp [or_comm]

theorem insertUnique_not_isEmpty (c : String) (l : List String) :
    (insertUnique c l).isEmpty = false := by
  unfold insertUnique
  split
  · rename_i h
    cases l with
    | nil => simp at h
    | cons x xs => simp
  · simp

theorem insertUnique_of_mem {c : String} {l : List String} (h : c ∈ l) :
    insertUnique c l = l := by
  simp [insertUnique, h]

theorem lookupRun_setRun_self (m : List (String × List String)) (r : String)
    (l : List String) : lookupRun (setRun m r l) r = some l := by
  induction m with
  | nil => simp [setRun, lookupRun]
  | cons p t ih =>
    by_cases h : p.1 = r
    · rw [setRun, if_pos h, lookupRun_cons_pos rfl]
    · rw [setRun, if_neg h, lookupRun_cons_neg h]
      exact ih

theorem lookupRun_setRun_ne (m : List (String × List String)) {r r' : String}
    (h : r' ≠ r) (l : List String) :
    lookupRun (setRun m r l) r' = lookupRun m r' := by
  induction m with
  | nil =>
    rw [setRun, lookupRun_cons_neg (by exact fun hc => h hc.symm)]
  | cons p t ih =>
    by_cases hp : p.1 = r
    · rw [setRun, if_pos hp, lookupRun_cons_neg (by exact fun hc => h hc.symm),
        lookupRun_cons_neg (by rw [hp]; exact fun hc => h hc.symm)]
    · by_cases hp' : p.1 = r'
      · rw [setRun, if_neg hp, lookupRun_cons_pos hp', lookupRun_cons_pos hp']
      · rw [setRun, if_neg hp, lookupRun_cons_neg hp', lookupRun_cons_neg hp']
        exact ih

theorem setRun_setRun (m : List (String × List String)) (r : String)
    (l l' : List String) : setRun (setRun m r l) r l' = setRun m r l' := by
  induction m with
  | nil => simp [setRun]
  | cons p t ih =>
    by_cases h : p.1 = r
    · rw [setRun, if_pos h, setRun, if_pos rfl, setRun, if_pos h]
    · rw [setRun, if_neg h, setRun, if_neg h, setRun, if_neg h, ih]

theorem deleteRun_cons (p : String × List String) (t : List (String × List String))
    (r : String) :
    deleteRun (p :: t) r = if p.1 = r then deleteRun t r else p :: deleteRun t r := by
  by_cases hp : p.1 = r <;> simp [deleteRun, List.filter_cons, hp]

theorem lookupRun_deleteRun_self (m : List (String × List String)) (r : String) :
    lookupRun (deleteRun m r) r = none := by
  induction m with
  | nil => simp [deleteRun, lookupRun]
  | cons p t ih =>
    rw [deleteRun_cons]
    by_cases hp : p.1 = r
    · rw [if_pos hp]; exact ih
    · rw [if_neg hp, lookupRun_cons_neg hp]; exact ih

theorem lookupRun_deleteRun_ne (m : List (String × List String)) {r r' : String}
    (h : r' ≠ r) : lookupRun (deleteRun m r) r' = lookupRun m r' := by
  induction m with
  | nil => simp [deleteRun, lookupRun]
  | cons p t ih =>
    rw [deleteRun_cons]
    by_cases hp : p.1 = r
    · rw [if_pos hp, lookupRun_cons_neg (by rw [hp]; exact fun hc => h hc.symm)]
      exact ih
    · by_cases hp' : p.1 = r'
      · rw [if_neg hp, lookupRun_cons_pos hp', lookupRun_cons_pos hp']
      · rw [if_neg hp, lookupRun_cons_neg hp', lookupRun_cons_neg hp']
        exact ih

theorem not_mem_lookupRun_closeRuns (m : List (String × List String)) (c r : String) :
    c ∉ (lookupRun (closeRuns m c) r).getD [] := by
  induction m with
  | nil => simp [closeRuns, lookupRun]
  | cons p t ih =>
    simp only [closeRuns]
    split
    · exact ih
    · by_cases hp : p.1 = r
      · rw [lookupRun_cons_pos (p := (p.1, p.2.filter (· ≠ c))) hp]
        simp
      · rw [lookupRun_cons_neg (p := (p.1, p.2.filter (· ≠ c))) hp]
        exact ih

theorem filter_idem_bool {α : Type} (q : α → Bool) (l : List α) :
    (l.filter q).filter q = l.filter q := by
  simp [List.filter_filter]

theorem closeRuns_idem (m : List (String × List String)) (c : String) :
    closeRuns (closeRuns m c) c = closeRuns m c := by
  induction m with
  | nil => simp [closeRuns]
  | cons p t ih =>
    simp only [closeRuns]
    split
    · exact ih
    · rename_i hne
      simp only [closeRuns, filter_idem_bool]
      rw [if_neg hne]
      rw [ih]

/-- Anything on the delivered list of a `broadcastRunUpdate` call was in the
recipient union and had a live, non-throwing transport. -/
theorem mem_broadcast_delivered {st : HubState} {rid c : String}
    (h : c ∈ (broadcastRunUpdate st rid).2) :
    (c ∈ (lookupRun st.runSubscriptions rid).getD [] ∨ c ∈ st.globalSubscribers) ∧
      sendSucceeds st c = true := by
  unfold broadcastRunUpdate at h
  dsimp only at h
  split at h
  · simp at h
  · simp only [List.mem_filter, List.mem_dedup, List.mem_append] at h
    exact h

/-- Claim C6 — After `disconnect(clientId)` (the `handleClose` handler) the id is
a member of zero subscription sets (neither `globalSubscribers` nor any per-run
set), its session is dropped, a second `disconnect` with the same id leaves the
registry unchanged (idempotence), and no subsequent `publish`
(`broadcastRunUpdate`) for any run delivers an event to that client. -/
theorem disconnect_removes_and_silences (st : HubState) (c : String) :
    (∀ r : String, c ∉ (lookupRun (handleClose st c).runSubscriptions r).getD []) ∧
    c ∉ (handleClose st c).globalSubscribers ∧
    (handleClose st c).sessions.find? (fun p => p.1 = c) = none ∧
    handleClose (handleClose st c) c = handleClose st c ∧
    (∀ rid : String, c ∉ (broadcastRunUpdate (handleClose st c) rid).2) := by
  refine ⟨?_, ?_, ?_, ?_, ?_⟩
  · intro r
    exact not_mem_lookupRun_closeRuns st.runSubscriptions c r
  · simp [handleClose, List.mem_filter]
  · rw [List.find?_eq_none]
    intro x hx
    simp only [handleClose, List.mem_filter] at hx
    simpa using hx.2
  · simp only [handleClose, closeRuns_idem, filter_idem_bool]
  · intro rid hmem
    rcases mem_broadcast_delivered hmem with ⟨hin, _⟩
    rcases hin with hin | hin
    · exact not_mem_lookupRun_closeRuns st.runSubscriptions c rid hin
    · simp [handleClose, List.mem_filter] at hin

/-- Witness for claim C6 at a concrete registry: `c1` subscribed to run `r1` and
to the wildcard, with a live session. -/
theorem disconnect_removes_and_silences_witness :
    "c1" ∉ (lookupRun (handleClose
        { sessions := [("c1", { isOpen := true, sendThrows := false })]
          runSubscriptions := [("r1", ["c1"])]
          globalSubscribers := ["c1"] } "c1").runSubscriptions "r1").getD [] ∧
    "c1" ∉ (broadcastRunUpdate (handleClose
        { sessions := [("c1", { isOpen := true, sendThrows := false })]
          runSubscriptions := [("r1", ["c1"])]
          globalSubscribers := ["c1"] } "c1") "r1").2 := by
  refine ⟨?_, ?_⟩
  · exact (disconnect_removes_and_silences
      { sessions := [("c1", { isOpen := true, sendThrows := false })]
        runSubscriptions := [("r1", ["c1"])]
        globalSubscribers := ["c1"] } "c1").1 "r1"
  · exact (disconnect_removes_and_silences
      { sessions := [("c1", { isOpen := true, sendThrows := false })]
        runSubscriptions := [("r1", ["c1"])]
        globalSubscribers := ["c1"] } "c1").2.2.2.2 "r1"

/-- Claim C8 — `handleSubscribe` resolves the scope exactly as claimed: a
wildcard run id (omitted, empty, `"all"` or `"*"`) adds the client to the
global subscriber set, leaves every per-run set untouched and acknowledges
scope `global`; any other run id adds the client to exactly the set of that run
(the set of every other run unchanged, global set unchanged) and acknowledges scope
`specific`. -/
theorem subscribe_scope_resolution (st : HubState) (c : String) (rid : Option String) :
    (isWildcard rid = true →
      (handleSubscribe st c rid).1.globalSubscribers = insertUnique c st.globalSubscribers ∧
      (handleSubscribe st c rid).1.runSubscriptions = st.runSubscriptions ∧
      (handleSubscribe st c rid).1.sessions = st.sessions ∧
      (handleSubscribe st c rid).2 = { runId := "all", scope := Scope.global }) ∧
    (isWildcard rid = false →
      lookupRun (handleSubscribe st c rid).1.runSubscriptions (rid.getD "") =
        some (insertUnique c ((lookupRun st.runSubscriptions (rid.getD "")).getD [])) ∧
      (∀ r' : String, r' ≠ rid.getD "" →
        lookupRun (handleSubscribe st c rid).1.runSubscriptions r' =
          lookupRun st.runSubscriptions r') ∧
      (handleSubscribe st c rid).1.globalSubscribers = st.globalSubscribers ∧
      (handleSubscribe st c rid).1.sessions = st.sessions ∧
      (handleSubscribe st c rid).2 = { runId := rid.getD "", scope := Scope.specific }) := by
  constructor
  · intro hw
    simp [handleSubscribe, hw]
  · intro hw
    have hif : handleSubscribe st c rid =
        ({ st with
            runSubscriptions := setRun st.runSubscriptions (rid.getD "")
              (insertUnique c ((lookupRun st.runSubscriptions (rid.getD "")).getD [])) },
         { runId := rid.getD "", scope := Scope.specific }) := by
      simp [handleSubscribe, hw]
    rw [hif]
    exact ⟨lookupRun_setRun_self _ _ _, fun r' hr' => lookupRun_setRun_ne _ hr' _,
      rfl, rfl, rfl⟩

/-- Witness for claim C8: one wildcard subscribe and one specific subscribe on a
concrete registry. -/
theorem subscribe_scope_resolution_witness :
    (handleSubscribe hubOneLive "c1" (some "all")).2.scope = Scope.global ∧
    (handleSubscribe hubOneLive "c1" (some "r1")).2.scope = Scope.specific ∧
    lookupRun (handleSubscribe hubOneLive "c1" (some "r1")).1.runSubscriptions "r1" =
      some ["c1"] := by
  refine ⟨?_, ?_, ?_⟩
  · rw [((subscribe_scope_resolution hubOneLive "c1" (some "all")).1 rfl).2.2.2]
  · rw [((subscribe_scope_resolution hubOneLive "c1" (some "r1")).2 rfl).2.2.2.2]
  · have h := ((subscribe_scope_resolution hubOneLive "c1" (some "r1")).2 rfl).1
    simpa [hubOneLive, lookupRun, insertUnique] using h

/-- Counterexample to claim C4 as stated.  In `hubTwoRuns`, the recipient
union of run `A` is `c1, c2`: the transport of `c1` is closed and the open transport of `c2`
throws on send.  After `broadcastRunUpdate("A")`: nothing was delivered even
though the union is non-empty; `c1` was *not* removed from all subscription
sets (it survives in the set of run `B` — cleanup touches only the set of the
published run and the global set); and `c2`, whose send failed, was not removed at all. -/
theorem publish_cleanup_counterexample :
    (broadcastRunUpdate hubTwoRuns "A").2 = [] ∧
    "c1" ∈ (lookupRun (broadcastRunUpdate hubTwoRuns "A").1.runSubscriptions "B").getD [] ∧
    "c2" ∈ (lookupRun (broadcastRunUpdate hubTwoRuns "A").1.runSubscriptions "A").getD [] := by
  refine ⟨rfl, ?_, ?_⟩ <;> decide

/-- Claim C4 (amended) — `broadcastRunUpdate(runId, event)` delivers the event
to exactly those members of `perRunSubscribers[runId] ∪ globalSubscribers`
whose transport is open and whose send does not throw, and to no session
outside that union.  A union member whose transport is **not open** is removed
from the subscriber set of the published run and from the global set during the
same call (but *not* from other runs' sets, which are left unchanged); a
member whose send throws is only logged and stays subscribed.  Sessions are
never modified by publishing. -/
theorem publish_fanout_and_cleanup (st : HubState) (rid : String) :
    (∀ c : String, c ∈ (broadcastRunUpdate st rid).2 ↔
      ((c ∈ (lookupRun st.runSubscriptions rid).getD [] ∨ c ∈ st.globalSubscribers) ∧
        sendSucceeds st c = true)) ∧
    (∀ c : String,
      (c ∈ (lookupRun st.runSubscriptions rid).getD [] ∨ c ∈ st.globalSubscribers) →
      sessionIsLive st c = false →
      c ∉ (lookupRun (broadcastRunUpdate st rid).1.runSubscriptions rid).getD [] ∧
      c ∉ (broadcastRunUpdate st rid).1.globalSubscribers) ∧
    (∀ r' : String, r' ≠ rid →
      lookupRun (broadcastRunUpdate st rid).1.runSubscriptions r' =
        lookupRun st.runSubscriptions r') ∧
    (broadcastRunUpdate st rid).1.sessions = st.sessions := by
  unfold broadcastRunUpdate
  dsimp only
  by_cases hre : (((lookupRun st.runSubscriptions rid).getD [] ++
      st.globalSubscribers).dedup).isEmpty
  · rw [if_pos hre]
    have hnil : (lookupRun st.runSubscriptions rid).getD [] ++ st.globalSubscribers = [] := by
      have := List.isEmpty_iff.mp hre
      rwa [List.dedup_eq_nil] at this
    rcases List.append_eq_nil.mp hnil with ⟨h1, h2⟩
    refine ⟨?_, ?_, ?_, rfl⟩
    · intro c
      simp [h1, h2]
    · intro c hc _
      rw [h1, h2] at hc
      simp at hc
    · intro r' _
      rfl
  · rw [if_neg hre]
    refine ⟨?_, ?_, ?_, rfl⟩
    · intro c
      simp [List.mem_filter, List.mem_dedup, List.mem_append]
    · intro c hc hlive
      have hstale : c ∈ (((lookupRun st.runSubscriptions rid).getD [] ++
          st.globalSubscribers).dedup) ∧ (!sessionIsLive st c) = true := by
        simp [List.mem_dedup, List.mem_append, hc, hlive]
      constructor
      · split
        · rw [lookupRun_deleteRun_self]
          simp
        · rw [lookupRun_setRun_self]
          simp only [Option.getD_some, List.mem_filter, decide_eq_true_eq]
          rintro ⟨-, habs⟩
          exact habs hstale
      · simp only [List.mem_filter, decide_eq_true_eq]
        rintro ⟨-, habs⟩
        exact habs hstale
    · intro r' hr'
      split
      · exact lookupRun_deleteRun_ne _ hr'
      · exact lookupRun_setRun_ne _ hr' _

/-- Witness for claim C4 (amended) at the concrete hub `hubMixed`: publishing to
`r1` delivers to the live subscriber `c1` and removes the closed subscriber
`c2` from the set of `r1`. -/
theorem publish_fanout_and_cleanup_witness :
    "c1" ∈ (broadcastRunUpdate hubMixed "r1").2 ∧
    "c2" ∉ (lookupRun (broadcastRunUpdate hubMixed "r1").1.runSubscriptions "r1").getD [] := by
  constructor
  · exact ((publish_fanout_and_cleanup hubMixed "r1").1 "c1").mpr
      ⟨Or.inl (by decide), by decide⟩
  · exact ((publish_fanout_and_cleanup hubMixed "r1").2.1 "c2"
      (Or.inl (by decide)) (by decide)).1

theorem all_nonempty_setRun {m : List (String × List String)} {r : String}
    {l : List String} (hm : m.all (fun p => !p.2.isEmpty) = true)
    (hl : l.isEmpty = false) : (setRun m r l).all (fun p => !p.2.isEmpty) = true := by
  induction m with
  | nil => simp [setRun, hl]
  | cons p t ih =>
    rw [List.all_cons, Bool.and_eq_true] at hm
    by_cases h : p.1 = r
    · rw [setRun, if_pos h]
      simp [hl, hm.2]
    · rw [setRun, if_neg h]
      simp [hm.1, ih hm.2]

theorem all_nonempty_deleteRun {m : List (String × List String)} {r : String}
    (hm : m.all (fun p => !p.2.isEmpty) = true) :
    (deleteRun m r).all (fun p => !p.2.isEmpty) = true := by
  rw [List.all_eq_true] at hm ⊢
  intro x hx
  exact hm x (List.mem_of_mem_filter hx)

theorem all_nonempty_closeRuns (m : List (String × List String)) (c : String) :
    (closeRuns m c).all (fun p => !p.2.isEmpty) = true := by
  induction m with
  | nil => simp [closeRuns]
  | cons p t ih =>
    simp only [closeRuns]
    split
    · exact ih
    · rename_i hne
      rw [List.all_cons, Bool.and_eq_true]
      exact ⟨by simpa using hne, ih⟩

/-- Claim C9 — The subscription registry never maps a run id to an empty
subscriber set: each of the four operations (`handleSubscribe`,
`handleUnsubscribe`, `handleClose`, `broadcastRunUpdate`) preserves the
invariant `noEmptyRuns`, because any operation that could empty a per-run set
deletes its map entry instead. -/
theorem registry_prunes_empty_sets (st : HubState) (h : noEmptyRuns st = true) :
    (∀ (c : String) (rid : Option String),
      noEmptyRuns (handleSubscribe st c rid).1 = true) ∧
    (∀ (c : String) (rid : Option String),
      noEmptyRuns (handleUnsubscribe st c rid).1 = true) ∧
    (∀ c : String, noEmptyRuns (handleClose st c) = true) ∧
    (∀ rid : String, noEmptyRuns (broadcastRunUpdate st rid).1 = true) := by
  unfold noEmptyRuns at h
  refine ⟨?_, ?_, ?_, ?_⟩
  · intro c rid
    unfold handleSubscribe
    split
    · exact h
    · exact all_nonempty_setRun h (insertUnique_not_isEmpty _ _)
  · intro c rid
    unfold handleUnsubscribe
    split
    · exact h
    · dsimp only
      rcases hl : lookupRun st.runSubscriptions (rid.getD "") with _ | l
      · exact h
      · dsimp only
        split
        · exact all_nonempty_deleteRun h
        · rename_i hne
          exact all_nonempty_setRun h (by simpa using hne)
  · intro c
    exact all_nonempty_closeRuns st.runSubscriptions c
  · intro rid
    unfold broadcastRunUpdate
    dsimp only
    split
    · exact h
    · dsimp only
      split
      · exact all_nonempty_deleteRun h
      · rename_i hne
        exact all_nonempty_setRun h (by simpa using hne)

/-- Witness for claim C9: the invariant is preserved across a concrete
subscribe and an unsubscribe that empties (and prunes) the set. -/
theorem registry_prunes_empty_sets_witness :
    noEmptyRuns hubOneLive = true ∧
    noEmptyRuns (handleSubscribe hubOneLive "c1" (some "r1")).1 = true ∧
    noEmptyRuns (handleUnsubscribe hubOneLive "c1" (some "r1")).1 = true := by
  refine ⟨by decide, ?_, ?_⟩
  · exact (registry_prunes_empty_sets hubOneLive (by decide)).1 "c1" (some "r1")
  · exact (registry_prunes_empty_sets hubOneLive (by decide)).2.1 "c1" (some "r1")

theorem handleSubscribe_sessions (st : HubState) (c : String) (rid : Option String) :
    (handleSubscribe st c rid).1.sessions = st.sessions := by
  unfold handleSubscribe
  split <;> rfl

theorem sendSucceeds_congr {st st' : HubState} (c : String)
    (h : st'.sessions = st.sessions) : sendSucceeds st' c = sendSucceeds st c := by
  unfold sendSucceeds
  rw [h]

theorem handleSubscribe_idempotent (st : HubState) (c : String) (rid : Option String) :
    (handleSubscribe (handleSubscribe st c rid).1 c rid).1 = (handleSubscribe st c rid).1 := by
  by_cases hw : isWildcard rid = true
  · simp only [handleSubscribe, hw, if_true]
    congr 1
    exact insertUnique_of_mem (mem_insertUnique.mpr (Or.inl rfl))
  · have hw' : isWildcard rid = false := by simpa using hw
    simp only [handleSubscribe, hw', Bool.false_eq_true, if_false]
    congr 1
    rw [lookupRun_setRun_self]
    simp only [Option.getD_some]
    rw [insertUnique_of_mem (mem_insertUnique.mpr (Or.inl rfl)), setRun_setRun]

theorem count_broadcast_delivered (st : HubState) (rid c : String)
    (hmem : c ∈ (lookupRun st.runSubscriptions rid).getD [] ∨ c ∈ st.globalSubscribers)
    (hsend : sendSucceeds st c = true) :
    ((broadcastRunUpdate st rid).2).count c = 1 := by
  unfold broadcastRunUpdate
  dsimp only
  have hc : c ∈ ((lookupRun st.runSubscriptions rid).getD [] ++
      st.globalSubscribers).dedup := by
    rw [List.mem_dedup, List.mem_append]
    exact hmem
  rw [if_neg (by intro habs; rw [List.isEmpty_iff] at habs; rw [habs] at hc; simp at hc)]
  exact List.count_eq_one_of_mem
    ((List.nodup_dedup _).filter _)
    (List.mem_filter.mpr ⟨hc, hsend⟩)

/-- Claim C10 — Subscribing is idempotent: repeating the same `handleSubscribe`
(wildcard or specific) leaves the registry in the state one subscribe
produces; and after a double subscribe, a `broadcastRunUpdate` for the
subscribed run (any run, for a wildcard subscriber) delivers exactly one copy
of the event to that client, provided its transport is live and does not
throw. -/
theorem subscribe_idempotent_single_delivery (st : HubState) (c : String) :
    (∀ rid : Option String,
      (handleSubscribe (handleSubscribe st c rid).1 c rid).1 =
        (handleSubscribe st c rid).1) ∧
    (∀ r : String, isWildcard (some r) = false → sendSucceeds st c = true →
      ((broadcastRunUpdate
        (handleSubscribe (handleSubscribe st c (some r)).1 c (some r)).1 r).2).count c = 1) ∧
    (∀ r : String, sendSucceeds st c = true →
      ((broadcastRunUpdate
        (handleSubscribe (handleSubscribe st c none).1 c none).1 r).2).count c = 1) := by
  refine ⟨handleSubscribe_idempotent st c, ?_, ?_⟩
  · intro r hw hsend
    rw [handleSubscribe_idempotent]
    have hses := handleSubscribe_sessions st c (some r)
    refine count_broadcast_delivered _ r c ?_ ?_
    · left
      have hif : (handleSubscribe st c (some r)).1.runSubscriptions =
          setRun st.runSubscriptions r
            (insertUnique c ((lookupRun st.runSubscriptions r).getD [])) := by
        simp [handleSubscribe, hw]
      rw [hif, lookupRun_setRun_self]
      exact mem_insertUnique.mpr (Or.inl rfl)
    · rw [sendSucceeds_congr c hses]
      exact hsend
  · intro r hsend
    rw [handleSubscribe_idempotent]
    have hses := handleSubscribe_sessions st c none
    refine count_broadcast_delivered _ r c ?_ ?_
    · right
      have hif : (handleSubscribe st c none).1.globalSubscribers =
          insertUnique c st.globalSubscribers := by
        simp [handleSubscribe, isWildcard]
      rw [hif]
      exact mem_insertUnique.mpr (Or.inl rfl)
    · rw [sendSucceeds_congr c hses]
      exact hsend

/-- Witness for claim C10: double-subscribing the live client `c1` to `r1` and
publishing `r1` delivers exactly one copy. -/
theorem subscribe_idempotent_single_delivery_witness :
    ((broadcastRunUpdate
      (handleSubscribe (handleSubscribe hubOneLive "c1" (some "r1")).1 "c1" (some "r1")).1
      "r1").2).count "c1" = 1 := by
  exact (subscribe_idempotent_single_delivery hubOneLive "c1").2.1 "r1" rfl (by decide)

/-- Counterexample to claim C5 as stated.  With a question present, the
`POST /question` success response is indeed an accepted (202) status carrying
the new run id — but its body field is `status: "running"`, never
`status: "pending"`. -/
theorem create_run_pending_counterexample :
    (postQuestion (some "hola") "run-1" false).code = 202 ∧
    (postQuestion (some "hola") "run-1" false).bodyRunId = some "run-1" ∧
    (postQuestion (some "hola") "run-1" false).bodyStatusField = some "running" ∧
    (postQuestion (some "hola") "run-1" false).bodyStatusField ≠ some "pending" := by
  refine ⟨rfl, rfl, rfl, by decide⟩

/-- Claim C5 (amended) — For every run-submission request (with the dispatch RPC
not throwing): if the body contains a non-empty question, the response is 202
Accepted with the new `runId` and the body field `status: "running"`; if the
question is missing or empty, the response is 400 with body
`error: "Question is required"`. -/
theorem create_run_response (q : Option String) (runId : String) :
    ((q = none ∨ q = some "") →
      (postQuestion q runId false).code = 400 ∧
      (postQuestion q runId false).bodyError = some "Question is required") ∧
    (∀ s : String, q = some s → s ≠ "" →
      (postQuestion q runId false).code = 202 ∧
      (postQuestion q runId false).bodyRunId = some runId ∧
      (postQuestion q runId false).bodyStatusField = some "running") := by
  constructor
  · rintro (rfl | rfl) <;> exact ⟨rfl, rfl⟩
  · rintro s rfl hs
    simp [postQuestion, hs]

/-- Witness for claim C5 (amended): a present question and a missing question. -/
theorem create_run_response_witness :
    (postQuestion (some "hola") "run-9" false).code = 202 ∧
    (postQuestion none "run-9" false).code = 400 ∧
    (postQuestion none "run-9" false).bodyError = some "Question is required" := by
  refine ⟨?_, ?_, ?_⟩
  · exact ((create_run_response (some "hola") "run-9").2 "hola" rfl (by decide)).1
  · exact ((create_run_response none "run-9").1 (Or.inl rfl)).1
  · exact ((create_run_response none "run-9").1 (Or.inl rfl)).2

/-! ## Helper lemmas about the pipeline -/

theorem setAgentState_agent_runs (d : AgentDO) (f : AgentState → AgentState) :
    (setAgentState d f).agent_runs = d.agent_runs := rfl

theorem insertRun_skip {d : AgentDO} {r : RunRow}
    (h : d.agent_runs.any (fun x => x.id = r.id) = true) : insertRun d r = d := by
  unfold insertRun
  rw [if_pos h]

theorem any_id_insertRun (d : AgentDO) (r : RunRow) :
    ((insertRun d r).agent_runs.any (fun x => x.id = r.id)) = true := by
  unfold insertRun
  split
  · rename_i h
    exact h
  · simp [List.any_append]

theorem askQuestion_stageCalls_pos (o : Oracle) (q runId : String) (d : AgentDO) :
    1 ≤ (askQuestion o q runId d).stageCalls := by
  rcases hrel : o.relevant
  · simp [askQuestion, hrel]
  · rcases hemb : o.embeddingResult with msg | u
    · simp [askQuestion, hrel, hemb, failExit]
    · rcases hsearch : o.searchResult with msg | sr
      · simp [askQuestion, hrel, hemb, hsearch, failExit]
      · rcases hdocs : retrieveDocuments o sr with msg | docs
        · simp [askQuestion, hrel, hemb, hsearch, hdocs, failExit]
          split <;> omega
        · rcases hsynth : o.synthesisResult with msg | a
          · simp [askQuestion, hrel, hemb, hsearch, hdocs, hsynth, failExit]
          · simp [askQuestion, hrel, hemb, hsearch, hdocs, hsynth]

theorem askQuestion_totalRuns (o : Oracle) (q runId : String) (d : AgentDO) :
    (askQuestion o q runId d).final.state.totalRuns = d.state.totalRuns + 1 := by
  rcases hrel : o.relevant
  · simp [askQuestion, hrel, setAgentState, insertRun]
    split <;> rfl
  · rcases hemb : o.embeddingResult with msg | u
    · simp [askQuestion, hrel, hemb, failExit, setAgentState]
    · rcases hsearch : o.searchResult with msg | sr
      · simp [askQuestion, hrel, hemb, hsearch, failExit, setAgentState]
      · rcases hdocs : retrieveDocuments o sr with msg | docs
        · simp [askQuestion, hrel, hemb, hsearch, hdocs, failExit, setAgentState]
        · rcases hsynth : o.synthesisResult with msg | a
          · simp [askQuestion, hrel, hemb, hsearch, hdocs, hsynth, failExit, setAgentState]
          · simp [askQuestion, hrel, hemb, hsearch, hdocs, hsynth, setAgentState, insertRun]
            split <;> rfl

theorem askQuestion_agent_runs_of_present (o : Oracle) (q runId : String)
    (d' : AgentDO) (h : d'.agent_runs.any (fun x => x.id = runId) = true) :
    (askQuestion o q runId d').final.agent_runs = d'.agent_runs := by
  rcases hrel : o.relevant
  · simp [askQuestion, hrel, insertRun, setAgentState_agent_runs, h]
  · rcases hemb : o.embeddingResult with msg | u
    · simp [askQuestion, hrel, hemb, failExit, setAgentState]
    · rcases hsearch : o.searchResult with msg | sr
      · simp [askQuestion, hrel, hemb, hsearch, failExit, setAgentState]
      · rcases hdocs : retrieveDocuments o sr with msg | docs
        · simp [askQuestion, hrel, hemb, hsearch, hdocs, failExit, setAgentState]
        · rcases hsynth : o.synthesisResult with msg | a
          · simp [askQuestion, hrel, hemb, hsearch, hdocs, hsynth, failExit, setAgentState]
          · simp [askQuestion, hrel, hemb, hsearch, hdocs, hsynth, insertRun,
              setAgentState_agent_runs, h]

/-- Completion of `askQuestion` (no re-throw) always leaves a row with the
run id in the stored table: both completing paths insert it, and a pre-existing
row with that primary key survives the skipped insert. -/
theorem askQuestion_completed_row_present (o : Oracle) (q runId : String)
    (d : AgentDO) (h : (askQuestion o q runId d).threw = false) :
    ((askQuestion o q runId d).final.agent_runs.any (fun x => x.id = runId)) = true := by
  rcases hrel : o.relevant
  · simp only [askQuestion, hrel, Bool.not_false, if_pos, setAgentState_agent_runs]
    simpa using any_id_insertRun _ _
  · rcases hemb : o.embeddingResult with msg | u
    · simp [askQuestion, hrel, hemb, failExit] at h
    · rcases hsearch : o.searchResult with msg | sr
      · simp [askQuestion, hrel, hemb, hsearch, failExit] at h
      · rcases hdocs : retrieveDocuments o sr with msg | docs
        · simp [askQuestion, hrel, hemb, hsearch, hdocs, failExit] at h
        · rcases hsynth : o.synthesisResult with msg | a
          · simp [askQuestion, hrel, hemb, hsearch, hdocs, hsynth, failExit] at h
          · simp only [askQuestion, hrel, hemb, hsearch, hdocs, hsynth, Bool.not_true,
              Bool.false_eq_true, if_false, setAgentState_agent_runs]
            simpa using any_id_insertRun _ _

/-- Counterexample to claim C2 as stated.  `processQuestion` performs no check
of any stored status before launching `askQuestion`.  Re-invoking it for run
`r1` after a completed first launch performs a stage call (`stageCalls = 1`,
the relevance classifier) and mutates the agent state again (`totalRuns`
reaches `2`), instead of observing a non-`pending` status and returning
without side effects.  And when the external outcomes differ — the first
launch fails at the embedding stage (3 calls, no row stored), the retry
completes (1 call) — the retry even inserts a row of its own: the stage-call
counts differ and the stored table changes. -/
theorem duplicate_launch_counterexample :
    (processQuestion oracleIrrelevant "hola" "r1"
      (processQuestion oracleIrrelevant "hola" "r1" cleanDO).final).stageCalls = 1 ∧
    (processQuestion oracleIrrelevant "hola" "r1"
      (processQuestion oracleIrrelevant "hola" "r1" cleanDO).final).final.state.totalRuns
      = 2 ∧
    (processQuestion oracleEmbedFail "hola" "r1" cleanDO).final.agent_runs = [] ∧
    (processQuestion oracleEmbedFail "hola" "r1" cleanDO).stageCalls = 3 ∧
    (processQuestion oracleIrrelevant "hola" "r1"
      (processQuestion oracleEmbedFail "hola" "r1" cleanDO).final).stageCalls = 1 ∧
    ((processQuestion oracleIrrelevant "hola" "r1"
      (processQuestion oracleEmbedFail "hola" "r1" cleanDO).final).final.agent_runs).length
      = 1 := by
  exact ⟨rfl, rfl, rfl, rfl, rfl, rfl⟩

/-- Claim C2 (amended) — Launching `processQuestion` twice for the same run id
executes the stage sequence twice, for *any* combination of external outcomes
the two launches may encounter (the launches are quantified over independent
oracles): there is no pending-status guard, so the second invocation always
performs at least one external stage call and increments `totalRuns` again —
it is in no sense side-effect free.  The stored record enjoys only
duplicate-key protection: if the first invocation completed (did not throw),
the `agent_runs` row it left survives the retry unchanged, because a stored
row with that primary key turns every later insert into a logged no-op.  A
retry after a *failed* first invocation instead re-runs from scratch and may
store a row of its own, since the failure stored nothing (see the
counterexample). -/
theorem duplicate_launch_behavior (o₁ o₂ : Oracle) (q runId : String) (d0 : AgentDO) :
    1 ≤ (processQuestion o₂ q runId (processQuestion o₁ q runId d0).final).stageCalls ∧
    (processQuestion o₂ q runId
        (processQuestion o₁ q runId d0).final).final.state.totalRuns
      = d0.state.totalRuns + 2 ∧
    ((askQuestion o₁ q runId d0).threw = false →
      (processQuestion o₂ q runId (processQuestion o₁ q runId d0).final).final.agent_runs
        = (processQuestion o₁ q runId d0).final.agent_runs) := by
  refine ⟨?_, ?_, ?_⟩
  · exact askQuestion_stageCalls_pos o₂ q runId _
  · show (askQuestion o₂ q runId
        (askQuestion o₁ q runId d0).final).final.state.totalRuns
      = d0.state.totalRuns + 2
    rw [askQuestion_totalRuns, askQuestion_totalRuns]
  · intro hok
    exact askQuestion_agent_runs_of_present o₂ q runId _
      (askQuestion_completed_row_present o₁ q runId d0 hok)

/-- Witness for claim C2 (amended): a completed first launch followed by a
retry whose external calls behave differently (its embedding throws) — the
retry still makes stage calls, and the stored row of the first launch is left
unchanged. -/
theorem duplicate_launch_behavior_witness :
    1 ≤ (processQuestion oracleEmbedFail "hola" "r2"
      (processQuestion oracleIrrelevant "hola" "r2" cleanDO).final).stageCalls ∧
    (processQuestion oracleEmbedFail "hola" "r2"
      (processQuestion oracleIrrelevant "hola" "r2" cleanDO).final).final.agent_runs =
      (processQuestion oracleIrrelevant "hola" "r2" cleanDO).final.agent_runs := by
  exact ⟨(duplicate_launch_behavior oracleIrrelevant oracleEmbedFail "hola" "r2" cleanDO).1,
    (duplicate_launch_behavior oracleIrrelevant oracleEmbedFail "hola" "r2" cleanDO).2.2 rfl⟩

/-- Counterexample to claim C1 as stated.  The embedding stage of run `r1` throws:
the generator re-throws out of its `catch`, no notification event is emitted
(the pipeline contains no emission site at all), **no row is written to the
`agent_runs` table**, and the status-query answer for the run carries no
error message — so the claimed "stored record at terminal `failed` with a
non-empty human-readable error, plus a final notification" does not exist. -/
theorem failed_run_counterexample :
    (askQuestion oracleEmbedFail "hola" "r1" cleanDO).threw = true ∧
    (askQuestion oracleEmbedFail "hola" "r1" cleanDO).events = [] ∧
    (askQuestion oracleEmbedFail "hola" "r1" cleanDO).final.agent_runs = [] ∧
    (statusQuery (askQuestion oracleEmbedFail "hola" "r1" cleanDO).final "r1").errorField
      = none := by
  exact ⟨rfl, rfl, rfl, rfl⟩

/-- Claim C1 (amended) — When any stage of a run pipeline throws, the failure
is caught at the top level (the background task of `processQuestion` returns
success and never propagates the error), and the in-memory agent state is
set to `failed`, which the status query reports (via its `lastRunId`
fallback) for as long as that run remains the last run of the agent.  However no
record is inserted into the `agent_runs` table, the status response exposes
no error message (the schema has no error column), and no notification event
is emitted to subscribers. -/
theorem failed_run_behavior (o : Oracle) (q runId : String) (d0 : AgentDO)
    (h0 : d0.agent_runs = [])
    (ht : (askQuestion o q runId d0).threw = true) :
    (processQuestion o q runId d0).returnedSuccess = true ∧
    (askQuestion o q runId d0).final.state.lastRunStatus = some RunStatus.failed ∧
    (statusQuery (askQuestion o q runId d0).final runId).runStatusField
      = some RunStatus.failed ∧
    (statusQuery (askQuestion o q runId d0).final runId).errorField = none ∧
    (askQuestion o q runId d0).final.agent_runs = [] ∧
    (askQuestion o q runId d0).events = [] := by
  rcases hrel : o.relevant
  · rw [show (askQuestion o q runId d0).threw = false by simp [askQuestion, hrel]] at ht
    exact absurd ht (by simp)
  · rcases hemb : o.embeddingResult with msg | u
    · refine ⟨rfl, ?_, ?_, ?_, ?_, ?_⟩ <;>
        simp [askQuestion, hrel, hemb, failExit, setAgentState, statusQuery, h0]
    · rcases hsearch : o.searchResult with msg | sr
      · refine ⟨rfl, ?_, ?_, ?_, ?_, ?_⟩ <;>
          simp [askQuestion, hrel, hemb, hsearch, failExit, setAgentState, statusQuery, h0]
      · rcases hdocs : retrieveDocuments o sr with msg | docs
        · refine ⟨rfl, ?_, ?_, ?_, ?_, ?_⟩ <;>
            simp [askQuestion, hrel, hemb, hsearch, hdocs, failExit, setAgentState,
              statusQuery, h0]
        · rcases hsynth : o.synthesisResult with msg | a
          · refine ⟨rfl, ?_, ?_, ?_, ?_, ?_⟩ <;>
              simp [askQuestion, hrel, hemb, hsearch, hdocs, hsynth, failExit,
                setAgentState, statusQuery, h0]
          · rw [show (askQuestion o q runId d0).threw = false by
              simp [askQuestion, hrel, hemb, hsearch, hdocs, hsynth]] at ht
            exact absurd ht (by simp)

/-- Witness for claim C1 (amended) at the embedding-failure run. -/
theorem failed_run_behavior_witness :
    (statusQuery (askQuestion oracleEmbedFail "hola" "r3" cleanDO).final "r3").runStatusField
      = some RunStatus.failed ∧
    (askQuestion oracleEmbedFail "hola" "r3" cleanDO).events = [] := by
  exact ⟨(failed_run_behavior oracleEmbedFail "hola" "r3" cleanDO rfl rfl).2.2.1,
    (failed_run_behavior oracleEmbedFail "hola" "r3" cleanDO rfl rfl).2.2.2.2.2⟩

/-- Claim C7 — A run whose similarity search returns zero matches does not fail:
`retrieveDocuments` short-circuits to an empty list without touching D1, the
synthesis stage is invoked with the empty-context prompt, the run reaches
`completed`, and that prompt explicitly directs the model to report that the
knowledge base holds insufficient information. -/
theorem empty_retrieval_completes (o : Oracle) (q runId : String) (d0 : AgentDO)
    (hrel : o.relevant = true)
    (hemb : o.embeddingResult = Except.ok ())
    (hsearch : o.searchResult = Except.ok [])
    (a : Option String) (hsynth : o.synthesisResult = Except.ok a) :
    (askQuestion o q runId d0).threw = false ∧
    (askQuestion o q runId d0).synthPrompt = some (buildPrompt q [] none) ∧
    (askQuestion o q runId d0).final.state.lastRunStatus = some RunStatus.completed ∧
    buildPrompt q [] none =
      "No se encontraron documentos relevantes para responder la pregunta:\n\n" ++ q ++
        "\n\nPor favor, indica que no hay suficiente información en la base de conocimiento." := by
  refine ⟨?_, ?_, ?_, ?_⟩ <;>
    simp [askQuestion, hrel, hemb, hsearch, hsynth, retrieveDocuments, setAgentState,
      buildPrompt]

/-- Witness for claim C7 at the concrete empty-search run. -/
theorem empty_retrieval_completes_witness :
    (askQuestion oracleEmptySearch "hola" "r4" cleanDO).threw = false ∧
    (askQuestion oracleEmptySearch "hola" "r4" cleanDO).final.state.lastRunStatus
      = some RunStatus.completed := by
  exact ⟨(empty_retrieval_completes oracleEmptySearch "hola" "r4" cleanDO rfl rfl rfl _ rfl).1,
    (empty_retrieval_completes oracleEmptySearch "hola" "r4" cleanDO rfl rfl rfl _ rfl).2.2.1⟩

/-- Counterexample to claim C3 as stated.  Along `regressTrace` — a failing
launch of run `r1` followed by a retried launch of the same run id (which the
code does not guard against, see `processQuestion`) — the poller observes
`running, failed, running, completed, completed`: the terminal `failed` is
followed by `running` again, and the record is later mutated to `completed`,
so the observable status sequence is not a non-decreasing walk. -/
theorem status_regression_counterexample :
    observedStatuses regressTrace "r1" =
      [RunStatus.running, RunStatus.failed, RunStatus.running,
        RunStatus.completed, RunStatus.completed] ∧
    monotonicWalk (observedStatuses regressTrace "r1") = false := by
  exact ⟨rfl, rfl⟩

/-- Claim C3 (amended) — Provided the pipeline is launched at most once for a
run id (from a fresh agent), the statuses observable through the status query
along that single execution are a non-decreasing walk of the state machine:
`running` until the terminal mutation, then the terminal status, which never
changes afterwards; `pending` is never observed at all (the code never stores
it). -/
theorem status_walk_single_launch (o : Oracle) (q runId : String) (d0 : AgentDO)
    (h0 : d0.agent_runs = []) (h1 : d0.state.lastRunId = none) :
    monotonicWalk (observedStatuses (d0 :: (askQuestion o q runId d0).states) runId)
      = true ∧
    RunStatus.pending ∉ observedStatuses (d0 :: (askQuestion o q runId d0).states) runId := by
  rcases hrel : o.relevant
  · constructor <;>
      simp [askQuestion, hrel, observedStatuses, statusQuery, setAgentState, insertRun,
        h0, h1, monotonicWalk, statusLe]
  · rcases hemb : o.embeddingResult with msg | u
    · constructor <;>
        simp [askQuestion, hrel, hemb, failExit, observedStatuses, statusQuery,
          setAgentState, h0, h1, monotonicWalk, statusLe]
    · rcases hsearch : o.searchResult with msg | sr
      · constructor <;>
          simp [askQuestion, hrel, hemb, hsearch, failExit, observedStatuses, statusQuery,
            setAgentState, h0, h1, monotonicWalk, statusLe]
      · rcases hdocs : retrieveDocuments o sr with msg | docs
        · constructor <;>
            simp [askQuestion, hrel, hemb, hsearch, hdocs, failExit, observedStatuses,
              statusQuery, setAgentState, h0, h1, monotonicWalk, statusLe]
        · rcases hsynth : o.synthesisResult with msg | a
          · constructor <;>
              simp [askQuestion, hrel, hemb, hsearch, hdocs, hsynth, failExit,
                observedStatuses, statusQuery, setAgentState, h0, h1, monotonicWalk,
                statusLe]
          · constructor <;>
              simp [askQuestion, hrel, hemb, hsearch, hdocs, hsynth, observedStatuses,
                statusQuery, setAgentState, insertRun, h0, h1, monotonicWalk, statusLe]

/-- Witness for claim C3 (amended) at the concrete empty-search run. -/
theorem status_walk_single_launch_witness :
    monotonicWalk (observedStatuses
      (cleanDO :: (askQuestion oracleEmptySearch "hola" "r5" cleanDO).states) "r5")
      = true := by
  exact (status_walk_single_launch oracleEmptySearch "hola" "r5" cleanDO rfl rfl).1
